import Mathlib

/-!
Verification of the qwe-vpn client core: a shallow embedding of
`src/cli/python/src/client/cmd_client.py` and
`src/client/python/src/client/device_resolver.py`.

Python string primitives (`str.strip`, `int(...)`, `str.split(',')`,
`str.startswith`, `str.replace`) are embedded as structural
functions over `List Char` so that every definition evaluates by kernel
reduction.
-/

/-! ## Python string primitives -/

/-- Characters removed by Python `str.strip()` at both ends. -/
def trimChars (l : List Char) : List Char :=
  ((l.dropWhile Char.isWhitespace).reverse.dropWhile Char.isWhitespace).reverse

/-- Embedding of Python `s.strip()`. -/
def pyStrip (s : String) : String := ⟨trimChars s.data⟩

/-- Digit-accumulator for `pyToInt`. -/
def parseDigitsGo (acc : Nat) : List Char → Option Nat
  | [] => some acc
  | c :: rest => if c.isDigit then parseDigitsGo (acc * 10 + (c.toNat - '0'.toNat)) rest else none

/-- Parse a non-empty all-digit character list. -/
def parseDigits : List Char → Option Nat
  | [] => none
  | l => parseDigitsGo 0 l

/-- Embedding of Python `int(s)`: optional surrounding whitespace, optional
sign, at least one digit; anything else raises (here: `none`). -/
def pyToInt (s : String) : Option Int :=
  match trimChars s.data with
  | [] => none
  | '-' :: rest => (parseDigits rest).map (fun n => -(n : Int))
  | '+' :: rest => (parseDigits rest).map (fun n => (n : Int))
  | l => (parseDigits l).map (fun n => (n : Int))

/-- Helper for `pySplitComma`. -/
def splitCommaAux (cur : List Char) : List Char → List String
  | [] => [⟨cur.reverse⟩]
  | c :: rest => if c = ',' then ⟨cur.reverse⟩ :: splitCommaAux [] rest else splitCommaAux (c :: cur) rest

/-- Embedding of Python `s.split(',')`. -/
def pySplitComma (s : String) : List String := splitCommaAux [] s.data

/-- Remove the first occurrence of `pat` (Python replace, count 1, by the empty string). -/
def replaceFirstAux (pat : List Char) : List Char → List Char
  | [] => []
  | c :: rest =>
    if pat.isPrefixOf (c :: rest) then (c :: rest).drop pat.length
    else c :: replaceFirstAux pat rest

/-! ## ClientOpts: interface-name derivation (cmd_client.py lines 63-73) -/

/-- Source: `account_to_nic`, prepends the fixed vpn_ marker to the stripped account. -/
def ClientOpts.account_to_nic (account : String) : String := "vpn_" ++ pyStrip account

/-- Source: `nic_to_account`, drops the first occurrence of the vpn_ marker. -/
def ClientOpts.nic_to_account (nic : String) : String := ⟨replaceFirstAux "vpn_".data nic.data⟩

/-- Source: `is_vpn_nic`, tests whether the name starts with the vpn_ marker. -/
def ClientOpts.is_vpn_nic (nic : String) : Bool := "vpn_".data.isPrefixOf nic.data

/-! ## AccountInfo and the account store (cmd_client.py lines 82-165) -/

/-- The in-memory account record built by `AccountInfo.__init__`. -/
structure AccountInfo where
  hub : String
  account : String
  hostname : String
  is_default : Bool
  is_current : Bool
deriving DecidableEq

/-- Source constructor semantics: `self.account = account or hub`. -/
def AccountInfo.make (hub account hostname : String) (is_default is_current : Bool) : AccountInfo :=
  ⟨hub, if account = "" then hub else account, hostname, is_default, is_current⟩

/-- The persisted per-account record: `to_json` keeps every field except
`is_default` and `is_current`. -/
structure StoredAccount where
  hub : String
  account : String
  hostname : String
deriving DecidableEq

/-- Source: `AccountInfo.to_json`, a one-key map from the account name to the
record without the two derived flags. -/
def AccountInfo.to_json (a : AccountInfo) : String × StoredAccount :=
  (a.account, ⟨a.hub, a.account, a.hostname⟩)

/-- The logical state of the account-store file: the `_accounts` map (as an
insertion-ordered association list, mirroring a Python dict), the `_current`
pointer and the `_default` pointer (`none` models a missing/None entry,
`some ""` models an empty-string entry). -/
structure StoreData where
  accounts : List (String × StoredAccount)
  currentAcc : Option String
  defaultAcc : Option String
deriving DecidableEq

/-- Dict update merging one key: replace in place or append. -/
def updateAssoc (k : String) (v : StoredAccount) : List (String × StoredAccount) → List (String × StoredAccount)
  | [] => [(k, v)]
  | (k', v') :: rest => if k' = k then (k, v) :: rest else (k', v') :: updateAssoc k v rest

/-- First association for a key (Python dict lookup / the `find` generator). -/
def lookupAssoc (k : String) : List (String × StoredAccount) → Option StoredAccount
  | [] => none
  | (k', v) :: rest => if k' = k then some v else lookupAssoc k rest

/-- Python `x in keys` where `x` is an optional string: `None in keys` is
always false, otherwise list membership. -/
def memOpt (x : Option String) (keys : List String) : Bool :=
  match x with
  | none => false
  | some s => decide (s ∈ keys)

/-- Source: `AccountStorage.create_or_update`: merge the record into the map,
set `_current` to the account iff `connect`, set `_default` to the account iff
the record is marked default (otherwise both keep their previous value). -/
def AccountStorage.create_or_update (a : AccountInfo) (connect : Bool) (s : StoreData) : StoreData :=
  { accounts := updateAssoc a.to_json.1 a.to_json.2 s.accounts
    currentAcc := if connect then some a.account else s.currentAcc
    defaultAcc := if a.is_default then some a.account else s.defaultAcc }

/-- Source: `AccountStorage._to_account_info`: rebuild an `AccountInfo` and
compute the derived flags against the store pointers. -/
def AccountStorage.to_account_info (s : StoreData) (st : StoredAccount) : AccountInfo :=
  AccountInfo.make st.hub st.account st.hostname
    (s.defaultAcc == some st.account) (s.currentAcc == some st.account)

/-- Source: `AccountStorage.find`: `None` on empty key, otherwise the first
stored record whose key equals the query. -/
def AccountStorage.find (s : StoreData) (account : String) : Option AccountInfo :=
  if account = "" then none
  else (lookupAssoc account s.accounts).map (AccountStorage.to_account_info s)

/-- Source: `AccountStorage.remove`: drop every key in `keys` from the map,
reset `_default`/`_current` to the empty string when they match a removed key,
and report which of the two pointers matched. -/
def AccountStorage.remove (s : StoreData) (keys : List String) : StoreData × (Bool × Bool) :=
  ( { accounts := s.accounts.filter (fun p => !(decide (p.1 ∈ keys)))
      defaultAcc := if memOpt s.defaultAcc keys then some "" else s.defaultAcc
      currentAcc := if memOpt s.currentAcc keys then some "" else s.currentAcc }
  , (memOpt s.defaultAcc keys, memOpt s.currentAcc keys) )

/-- Source: `AccountStorage.set_default`. -/
def AccountStorage.set_default (s : StoreData) (account : String) : StoreData :=
  { s with defaultAcc := some account }

/-- Source: `AccountStorage.set_current`. -/
def AccountStorage.set_current (s : StoreData) (account : String) : StoreData :=
  { s with currentAcc := some account }

/-! ## VPNPIDHandler (cmd_client.py lines 168-211) -/

/-- Filesystem state seen by the PID handler: the candidate `.pid_*` files
under the install directory (path, first-line content) and the canonical
`vpn.pid` file content. -/
structure PidFs where
  pidFiles : List (String × String)
  canonical : Option String
deriving DecidableEq

/-- Source: `VPNPIDHandler._check_pid`: read and parse the file; a parse
failure raises, is caught, and removes that file; a parsed pid counts only if
positive and alive. Returns the pid found (0 for none) and whether the file
was removed. -/
def VPNPIDHandler.check_pid (pidExists : Int → Bool) (content : String) : Int × Bool :=
  match pyToInt content with
  | none => (0, true)
  | some pid => if pid ≠ 0 && pid > 0 && pidExists pid then (pid, false) else (0, false)

/-- Source: `VPNPIDHandler._find_pid`: scan the candidate files lazily and
stop at the first live pid. Returns the pid found (0 for none) and the paths
removed by `_check_pid` during the scan. -/
def VPNPIDHandler.find_pid (pidExists : Int → Bool) : List (String × String) → Int × List String
  | [] => (0, [])
  | (path, content) :: rest =>
    let r := VPNPIDHandler.check_pid pidExists content
    if r.1 ≠ 0 then (r.1, if r.2 then [path] else [])
    else
      let rec_ := VPNPIDHandler.find_pid pidExists rest
      (rec_.1, (if r.2 then [path] else []) ++ rec_.2)

/-- Source: `VPNPIDHandler.is_running`: on a live pid, cache it to the
canonical pid file and return true; otherwise `cleanup()` (remove every
remaining candidate pid file and the canonical file) and return false. -/
def VPNPIDHandler.is_running (pidExists : Int → Bool) (fs : PidFs) : Bool × PidFs :=
  let r := VPNPIDHandler.find_pid pidExists fs.pidFiles
  let fs1 : PidFs := { fs with pidFiles := fs.pidFiles.filter (fun f => !(decide (f.1 ∈ r.2))) }
  if r.1 ≠ 0 then (true, { fs1 with canonical := some (toString r.1) })
  else (false, { pidFiles := [], canonical := none })

/-! ## DNSResolver.tweak (device_resolver.py lines 104-171) -/

/-- DHCP client-script reason codes (device_resolver.py lines 40-55). -/
inductive DHCPReason where
  | MEDIUM | PREINIT | BOUND | RENEW | REBIND | REBOOT
  | EXPIRE | FAIL | STOP | RELEASE | NBI | TIMEOUT
deriving DecidableEq

/-- Helper: does the pattern occur here with at least one trailing char. -/
def nsLineGo (pat : List Char) : List Char → Bool
  | [] => false
  | c :: rest => (pat.isPrefixOf (c :: rest) && decide (pat.length < (c :: rest).length))
      || nsLineGo pat rest

/-- Modelled from the spec: the `grep` helper of `src.utils.helper` (not under
`src/`) filters the backed-up resolver lines by the regular expression
`nameserver .+`, i.e. keeps each line in which `nameserver ` is followed by at
least one character. -/
def isNameserverLine (line : String) : Bool := nsLineGo "nameserver ".data line.data

/-- State of the three resolver files: the backup of the original system
resolver file (`resolv.origin.conf`, `none` while not yet readable), the
generated file (`resolv.vpn.conf`), the content a reader of
`/etc/resolv.conf` sees, and whether `/etc/resolv.conf` is currently the
symlink to the generated file. File contents are line lists. -/
structure DnsState where
  origin : Option (List String)
  vpnCfg : Option (List String)
  system : List String
  systemIsLinkToVpn : Bool
deriving DecidableEq

/-- Source: `DNSResolver.tweak`: skip on `PREINIT` or on `RENEW` with
unchanged nameservers; otherwise take at most the first two new nameservers,
back up the system resolver file if no backup exists yet, pad with original
nameserver lines up to three total, write the generated file and symlink the
system resolver file to it. -/
def DNSResolver.tweak (reason : DHCPReason) (new_name_servers old_name_servers : String)
    (st : DnsState) : DnsState :=
  if reason = DHCPReason.PREINIT ∨ (reason = DHCPReason.RENEW ∧ new_name_servers = old_name_servers) then
    st
  else
    let nameservers := (((pySplitComma new_name_servers).take 2).filter (fun ns => ns ≠ "")).map
      (fun ns => "nameserver " ++ ns)
    let origin := match st.origin with
      | some o => some o
      | none => some st.system
    let origins := (origin.getD []).filter isNameserverLine
    let nameservers2 := nameservers ++ origins.take (3 - nameservers.length)
    let content := "### Generated by VPN service" :: nameservers2
    { origin := origin, vpnCfg := some content, system := content, systemIsLinkToVpn := true }

/-! ## DeviceResolver.probe (device_resolver.py lines 264-424) -/

/-- Closed service-status set (device_resolver.py lines 17-27). -/
inductive ServiceStatus where
  | RUNNING | EXITED | WAITING | INACTIVE | UNKNOWN
deriving DecidableEq

inductive UnixServiceType where
  | SYSTEMD | PROCD
deriving DecidableEq

inductive IPResolverType where
  | DHCLIENT | UDHCPC
deriving DecidableEq

inductive DNSResolverType where
  | CONNMAN | DNSMASQ | SYSTEMD_RESOLVED | NETWORK_MANAGER | RESOLVCONF | UNKNOWN
deriving DecidableEq

/-- Enumeration order of `DNSResolverType` as iterated by `DNSResolver.probe`. -/
def dnsResolverTypes : List DNSResolverType :=
  [.CONNMAN, .DNSMASQ, .SYSTEMD_RESOLVED, .NETWORK_MANAGER, .RESOLVCONF, .UNKNOWN]

/-- Source: the `value` strings of `DNSResolverType`. -/
def DNSResolverType.value : DNSResolverType → String
  | .CONNMAN => "connman"
  | .DNSMASQ => "dnsmasq"
  | .SYSTEMD_RESOLVED => "systemd-resolved"
  | .NETWORK_MANAGER => "NetworkManager"
  | .RESOLVCONF => "resolvconf"
  | .UNKNOWN => "unknown"

/-- Host facts observed by the probes: whether `pidof systemd` / `pidof procd`
succeed, whether the `dhclient` binary is on the search path, the status each
service name reports, and whether the `resolvconf` command exists. -/
structure ProbeEnv where
  systemdRunning : Bool
  procdRunning : Bool
  dhclientOnPath : Bool
  svcStatus : String → ServiceStatus
  resolvconfCmd : Bool

/-- Errors raised during `DeviceResolver.probe` (all `NotImplementedError`
in the source, distinguished by message). -/
inductive ProbeErr where
  | unknownInitSystem
  | openwrtNotSupported
  | unknownIpResolver
  | unknownDnsResolver
deriving DecidableEq

/-- The three controller slots of a `DeviceResolver`; all `None` after
`__init__`. -/
structure DeviceState where
  service : Option UnixServiceType
  ipResolver : Option IPResolverType
  dnsResolver : Option DNSResolverType
deriving DecidableEq

/-- A `DeviceResolver` with no controller assigned (the `__init__` state). -/
def DeviceState.init : DeviceState := ⟨none, none, none⟩

/-- Source: `DNSResolver.probe`: first resolver type whose service reports
running, else `resolvconf` if the command exists, else nothing. -/
def DNSResolver.probe_kind (env : ProbeEnv) : Option DNSResolverType :=
  match dnsResolverTypes.find? (fun t => env.svcStatus t.value == ServiceStatus.RUNNING) with
  | some t => some t
  | none => if env.resolvconfCmd then some DNSResolverType.RESOLVCONF else none

/-- Source: `DeviceResolver.probe` threaded over the resolver state: assign
the init-system controller (`SystemdService.factory() or
ProcdService.factory()`, where the procd factory itself raises on an OpenWRT
host and `__not_null` raises on no match), then the IP resolver, then the DNS
resolver; a raise leaves the remaining slots untouched. -/
def DeviceResolver.probe (env : ProbeEnv) (st : DeviceState) : Except ProbeErr Unit × DeviceState :=
  match (if env.systemdRunning then Except.ok (some UnixServiceType.SYSTEMD)
         else if env.procdRunning then Except.error ProbeErr.openwrtNotSupported
         else Except.ok none : Except ProbeErr (Option UnixServiceType)) with
  | Except.error e => (Except.error e, st)
  | Except.ok none => (Except.error ProbeErr.unknownInitSystem, st)
  | Except.ok (some svc) =>
    let st1 := { st with service := some svc }
    match (if env.dhclientOnPath then some IPResolverType.DHCLIENT else none) with
    | none => (Except.error ProbeErr.unknownIpResolver, st1)
    | some ipr =>
      let st2 := { st1 with ipResolver := some ipr }
      match DNSResolver.probe_kind env with
      | none => (Except.error ProbeErr.unknownDnsResolver, st2)
      | some d => (Except.ok (), { st2 with dnsResolver := some d })

/-! ## VPNClientExecutor batch operations (cmd_client.py lines 337-360) -/

/-- Observable side effects of the executor: a management command sent to the
VPN client (with whether the external command failed — modelled from the
spec: `exec_command` failures on `silent`/best-effort calls are logged, never
raised), an IP release, a zombie-process cleanup, an IP lease, and a
`shutdown_vpn` call with its two flags. -/
inductive VpnEvent where
  | execCmd (cmds : List String) (param : String) (failed : Bool)
  | releaseIp (account nic : String)
  | cleanupZombie (pattern : String)
  | leaseIp (account nic : String) (daemon : Bool)
  | shutdown (is_stop is_disable : Bool)
deriving DecidableEq

/-- True exactly on a `shutdown` event. -/
def VpnEvent.isShutdown : VpnEvent → Bool
  | .shutdown _ _ => true
  | _ => false

/-- Forget the logged failure bit of a command event. -/
def VpnEvent.eraseFail : VpnEvent → VpnEvent
  | .execCmd cs p _ => .execCmd cs p false
  | e => e

/-- The account parameter of a command event, if any. -/
def VpnEvent.execParam : VpnEvent → Option String
  | .execCmd _ p _ => some p
  | _ => none

/-- Source: the per-account loop of `VPNClientExecutor.do_disconnect`: send
`AccountDisconnect` (best effort), release the leased IP of the derived
interface, clean up zombie lease processes scoped to that interface, and
accumulate whether the previously current account was seen. -/
def VPNClientExecutor.disconnectLoop (fail : String → Bool) (vpn_dir : String)
    (cur : Option String) : List String → List VpnEvent × Bool
  | [] => ([], false)
  | acc :: rest =>
    let evs := [VpnEvent.execCmd ["AccountDisconnect"] acc (fail acc),
                VpnEvent.releaseIp acc (ClientOpts.account_to_nic acc),
                VpnEvent.cleanupZombie (" " ++ vpn_dir ++ ".* " ++ ClientOpts.account_to_nic acc)]
    let r := VPNClientExecutor.disconnectLoop fail vpn_dir cur rest
    (evs ++ r.1, (cur == some acc) || r.2)

/-- Source: `VPNClientExecutor.do_disconnect`: read the current account once,
run the per-account loop, and, only when the current account was among the
batch, clear the current pointer and call
`shutdown_vpn(is_stop=True, is_disable=must_disable_service)`. -/
def VPNClientExecutor.do_disconnect (fail : String → Bool) (vpn_dir : String)
    (accounts : List String) (must_disable_service : Bool) (s : StoreData) :
    StoreData × List VpnEvent :=
  let cur := s.currentAcc
  let r := VPNClientExecutor.disconnectLoop fail vpn_dir cur accounts
  if r.2 then
    (AccountStorage.set_current s "", r.1 ++ [VpnEvent.shutdown true must_disable_service])
  else (s, r.1)

/-- Source: the per-account loop of `VPNClientExecutor.do_delete`: send the
three management commands (best effort), remove the account from the store,
and accumulate the cleared-default / cleared-current flags. -/
def VPNClientExecutor.deleteLoop (fail : String → Bool) (s : StoreData) :
    List String → StoreData × List VpnEvent × Bool × Bool
  | [] => (s, [], false, false)
  | acc :: rest =>
    let rm := AccountStorage.remove s [acc]
    let ev := VpnEvent.execCmd ["AccountDisconnect", "AccountDelete", "NicDelete"] acc (fail acc)
    let r := VPNClientExecutor.deleteLoop fail rm.1 rest
    (r.1, ev :: r.2.1, rm.2.1 || r.2.2.1, rm.2.2 || r.2.2.2)

/-- Source: `VPNClientExecutor.do_delete`: run the per-account loop, then
always call `shutdown_vpn(is_stop=is_stop, is_disable=is_disable)` with the
accumulated flags. -/
def VPNClientExecutor.do_delete (fail : String → Bool) (accounts : List String) (s : StoreData) :
    StoreData × List VpnEvent :=
  let r := VPNClientExecutor.deleteLoop fail s accounts
  (r.1, r.2.1 ++ [VpnEvent.shutdown r.2.2.2 r.2.2.1])

/-! ## loop_interval and lease_vpn_ip (cmd_client.py lines 387-394) -/

/-- Result of one bounded polling phase: whether a poll succeeded, how many
polls were issued, and how many seconds were spent sleeping. -/
structure LoopOut where
  ok : Bool
  polls : Nat
  slept : Nat
deriving DecidableEq

/-- Helper for `loop_interval`: poll attempts `i`, `i+1`, ... while fuel
remains, sleeping `interval` seconds after each failed attempt. -/
def loopGo (pred : Nat → Bool) (interval : Nat) : Nat → Nat → LoopOut
  | _, 0 => ⟨false, 0, 0⟩
  | i, fuel + 1 =>
    if pred i then ⟨true, 1, 0⟩
    else
      let r := loopGo pred interval (i + 1) fuel
      ⟨r.ok, r.polls + 1, r.slept + interval⟩

/-- Modelled from the spec: `loop_interval` of `src.utils.helper` (not under
`src/`) is a bounded-retry helper parameterized by a predicate, a fixed max
attempt count and a fixed inter-attempt delay; it returns success as soon as
the predicate holds and a timeout failure once the attempt budget is
exhausted. -/
def loop_interval (pred : Nat → Bool) (max_retries interval : Nat) : LoopOut :=
  loopGo pred interval 0 max_retries

/-- The two fatal failures of `lease_vpn_ip`: phase one exhausted, logged as
unable to connect the VPN, and phase two exhausted, logged as unable to
lease a VPN IP. -/
inductive LeaseErr where
  | vpnStartFailed
  | leaseIpFailed
deriving DecidableEq

/-- Source: the exact session marker string polled for by `lease_vpn_ip`. -/
def sessionEstablishedMark : String := "Connection Completed (Session Established)"

/-- Observable outcome of `lease_vpn_ip`: the result, the number of
session-status polls, the lease commands issued as the phase-two pre-action,
the number of interface-IP polls, and the total seconds slept. -/
structure LeaseOutcome where
  result : Except LeaseErr Unit
  statusPolls : Nat
  leaseCmds : List (String × String)
  ipPolls : Nat
  slept : Nat

/-- Source: `VPNClientExecutor.lease_vpn_ip`: first poll the VPN session
status for the exact marker (at most 5 attempts, 2-second interval); if that
budget is exhausted fail fatally; then issue one `lease_ip` pre-action on the
derived interface and poll `get_vpn_ip` for a non-None address (at most 5
attempts, 1-second interval); if that budget is exhausted fail fatally.
`vpnStatus k` is the status text observed at phase-one poll `k`; `vpnIp k`
tells whether the interface reports an address at phase-two poll `k`. -/
def VPNClientExecutor.lease_vpn_ip (vpnStatus : Nat → Option String) (vpnIp : Nat → Bool)
    (account : String) : LeaseOutcome :=
  let p1 := loop_interval (fun i => vpnStatus i == some sessionEstablishedMark) 5 2
  if p1.ok then
    let nic := ClientOpts.account_to_nic account
    let p2 := loop_interval (fun i => vpnIp i) 5 1
    { result := if p2.ok then Except.ok () else Except.error LeaseErr.leaseIpFailed
      statusPolls := p1.polls, leaseCmds := [(account, nic)], ipPolls := p2.polls
      slept := p1.slept + p2.slept }
  else
    { result := Except.error LeaseErr.vpnStartFailed
      statusPolls := p1.polls, leaseCmds := [], ipPolls := 0, slept := p1.slept }

/-! ## Helper lemmas -/

theorem isPrefixOf_append_left (l₁ l₂ : List Char) : l₁.isPrefixOf (l₁ ++ l₂) = true := by
  induction l₁ with
  | nil => simp [List.isPrefixOf]
  | cons c cs ih => simp [List.isPrefixOf, ih]

theorem replaceFirstAux_cons_append (c : Char) (cs l : List Char) :
    replaceFirstAux (c :: cs) ((c :: cs) ++ l) = l := by
  have h1 : (c :: cs).isPrefixOf ((c :: cs) ++ l) = true := isPrefixOf_append_left _ _
  show replaceFirstAux (c :: cs) (c :: (cs ++ l)) = l
  rw [replaceFirstAux]
  simp only [List.cons_append] at h1
  rw [if_pos h1]
  exact List.drop_left (c :: cs) l

theorem lookupAssoc_updateAssoc_self (k : String) (v : StoredAccount)
    (l : List (String × StoredAccount)) : lookupAssoc k (updateAssoc k v l) = some v := by
  induction l with
  | nil => simp [updateAssoc, lookupAssoc]
  | cons p rest ih =>
    by_cases h : p.1 = k
    · simp [updateAssoc, h, lookupAssoc]
    · simp [updateAssoc, h, lookupAssoc, ih]

theorem lookupAssoc_updateAssoc_ne (k k' : String) (v : StoredAccount)
    (l : List (String × StoredAccount)) (h : k' ≠ k) :
    lookupAssoc k (updateAssoc k' v l) = lookupAssoc k l := by
  induction l with
  | nil => simp [updateAssoc, lookupAssoc, h]
  | cons p rest ih =>
    by_cases hp : p.1 = k'
    · simp [updateAssoc, hp, lookupAssoc, h]
    · simp [updateAssoc, hp, lookupAssoc, ih]

theorem lookupAssoc_filter_not_mem (keys : List String) (k : String)
    (l : List (String × StoredAccount)) (h : k ∉ keys) :
    lookupAssoc k (l.filter (fun p => !(decide (p.1 ∈ keys)))) = lookupAssoc k l := by
  induction l with
  | nil => rfl
  | cons p rest ih =>
    by_cases hp : p.1 ∈ keys
    · have hne : p.1 ≠ k := fun e => h (e ▸ hp)
      simp [List.filter_cons, hp, lookupAssoc, hne, ih]
    · by_cases hk : p.1 = k
      · simp [List.filter_cons, hp, lookupAssoc, hk, h]
      · simp [List.filter_cons, hp, lookupAssoc, hk, ih]

theorem lookupAssoc_filter_mem (keys : List String) (k : String)
    (l : List (String × StoredAccount)) (h : k ∈ keys) :
    lookupAssoc k (l.filter (fun p => !(decide (p.1 ∈ keys)))) = none := by
  induction l with
  | nil => rfl
  | cons p rest ih =>
    by_cases hp : p.1 ∈ keys
    · simp [List.filter_cons, hp, ih]
    · have hne : p.1 ≠ k := fun e => hp (e ▸ h)
      simp [List.filter_cons, hp, lookupAssoc, hne, ih]

/-! ## Claim theorems: the account store -/

/-- C10: for every account string, the interface-name derivation round-trips
(`nic_to_account (account_to_nic a)` is the whitespace-stripped `a`) and every
derived interface name carries the `vpn_` prefix, so it passes `is_vpn_nic`. -/
theorem C10_nic_derivation_roundtrip (a : String) :
    ClientOpts.nic_to_account (ClientOpts.account_to_nic a) = pyStrip a ∧
    ClientOpts.is_vpn_nic (ClientOpts.account_to_nic a) = true := by
  constructor
  · show ClientOpts.nic_to_account ("vpn_" ++ pyStrip a) = pyStrip a
    unfold ClientOpts.nic_to_account
    rw [String.data_append]
    show (⟨replaceFirstAux ('v' :: 'p' :: 'n' :: '_' :: []) (('v' :: 'p' :: 'n' :: '_' :: []) ++ (pyStrip a).data)⟩ : String) = pyStrip a
    rw [replaceFirstAux_cons_append]
  · show ClientOpts.is_vpn_nic ("vpn_" ++ pyStrip a) = true
    unfold ClientOpts.is_vpn_nic
    rw [String.data_append]
    exact isPrefixOf_append_left _ _

/-- C10 witness: the round-trip evaluated at an account name with surrounding
whitespace. -/
theorem C10_nic_derivation_roundtrip_witness :
    ClientOpts.nic_to_account (ClientOpts.account_to_nic " corp ") = "corp" ∧
    ClientOpts.is_vpn_nic (ClientOpts.account_to_nic " corp ") = true := by
  have h := C10_nic_derivation_roundtrip " corp "
  have he : pyStrip " corp " = "corp" := by decide
  exact ⟨he ▸ h.1, h.2⟩

/-- C3: `AccountStorage.remove` deletes exactly the stored accounts whose key
is listed, resets the default pointer to empty precisely when the prior
default matched a listed key (same for the current pointer), and returns the
pair reporting which pointer matched. -/
theorem C3_remove_contract (s : StoreData) (keys : List String) :
    (∀ k, lookupAssoc k (AccountStorage.remove s keys).1.accounts
        = if k ∈ keys then none else lookupAssoc k s.accounts) ∧
    ((AccountStorage.remove s keys).1.defaultAcc
        = if memOpt s.defaultAcc keys then some "" else s.defaultAcc) ∧
    ((AccountStorage.remove s keys).1.currentAcc
        = if memOpt s.currentAcc keys then some "" else s.currentAcc) ∧
    (AccountStorage.remove s keys).2 = (memOpt s.defaultAcc keys, memOpt s.currentAcc keys) := by
  refine ⟨fun k => ?_, rfl, rfl, rfl⟩
  by_cases h : k ∈ keys
  · rw [if_pos h]
    exact lookupAssoc_filter_mem keys k s.accounts h
  · rw [if_neg h]
    exact lookupAssoc_filter_not_mem keys k s.accounts h

/-- C3 witness: removing `corp` from a two-account store with
`default = current = corp`. -/
theorem C3_remove_contract_witness :
    (∀ k, lookupAssoc k (AccountStorage.remove
        ⟨[("corp", ⟨"h", "corp", "x"⟩), ("lab", ⟨"h", "lab", "y"⟩)], some "corp", some "corp"⟩
        ["corp"]).1.accounts
      = if k ∈ ["corp"] then none
        else lookupAssoc k [("corp", (⟨"h", "corp", "x"⟩ : StoredAccount)), ("lab", ⟨"h", "lab", "y"⟩)]) ∧
    ((AccountStorage.remove
        ⟨[("corp", ⟨"h", "corp", "x"⟩), ("lab", ⟨"h", "lab", "y"⟩)], some "corp", some "corp"⟩
        ["corp"]).1.defaultAcc
      = if memOpt (some "corp") ["corp"] then some "" else some "corp") ∧
    ((AccountStorage.remove
        ⟨[("corp", ⟨"h", "corp", "x"⟩), ("lab", ⟨"h", "lab", "y"⟩)], some "corp", some "corp"⟩
        ["corp"]).1.currentAcc
      = if memOpt (some "corp") ["corp"] then some "" else some "corp") ∧
    (AccountStorage.remove
        ⟨[("corp", ⟨"h", "corp", "x"⟩), ("lab", ⟨"h", "lab", "y"⟩)], some "corp", some "corp"⟩
        ["corp"]).2
      = (memOpt (some "corp") ["corp"], memOpt (some "corp") ["corp"]) :=
  C3_remove_contract ⟨[("corp", ⟨"h", "corp", "x"⟩), ("lab", ⟨"h", "lab", "y"⟩)], some "corp", some "corp"⟩ ["corp"]

/-- C9: removing a (non-empty) account key a second time never errors, leaves
the store unchanged, and reports `(false, false)`. -/
theorem C9_remove_idempotent (s : StoreData) (A : String) (hA : A ≠ "") :
    AccountStorage.remove (AccountStorage.remove s [A]).1 [A]
      = ((AccountStorage.remove s [A]).1, (false, false)) := by
  have hmm : ∀ x : Option String, memOpt (if memOpt x [A] then some "" else x) [A] = false := by
    intro x
    by_cases h : memOpt x [A] = true
    · have : ¬ (("" : String) = A) := fun e => hA e.symm
      rw [if_pos h]
      simp [memOpt, this]
    · rw [if_neg h]
      exact Bool.not_eq_true _ ▸ h
  have hfilter : ∀ l : List (String × StoredAccount),
      (l.filter (fun p => !(decide (p.1 ∈ ([A] : List String))))).filter
        (fun p => !(decide (p.1 ∈ ([A] : List String))))
      = l.filter (fun p => !(decide (p.1 ∈ ([A] : List String)))) := by
    intro l
    rw [List.filter_filter]
    simp
  unfold AccountStorage.remove
  simp only [hmm, hfilter, if_neg (Bool.false_ne_true)]

/-- C9 witness: the second removal of `corp` on a store that had
`default = current = corp` reports `(false, false)` and changes nothing. -/
theorem C9_remove_idempotent_witness :
    AccountStorage.remove
      (AccountStorage.remove ⟨[("corp", ⟨"h", "corp", "x"⟩)], some "corp", some "corp"⟩ ["corp"]).1
      ["corp"]
    = ((AccountStorage.remove ⟨[("corp", ⟨"h", "corp", "x"⟩)], some "corp", some "corp"⟩ ["corp"]).1,
       (false, false)) :=
  C9_remove_idempotent ⟨[("corp", ⟨"h", "corp", "x"⟩)], some "corp", some "corp"⟩ "corp" (by decide)

/-! ## Claim C4: create_or_update followed by find -/

/-- A store operation, as invoked by the orchestrator between a
`create_or_update` and a later `find`. -/
inductive StoreOp where
  | createOrUpdate (a : AccountInfo) (connect : Bool)
  | removeKeys (keys : List String)
  | setDefaultKey (a : String)
  | setCurrentKey (a : String)
deriving DecidableEq

/-- Apply one store operation. -/
def StoreOp.apply (s : StoreData) : StoreOp → StoreData
  | .createOrUpdate a connect => AccountStorage.create_or_update a connect s
  | .removeKeys keys => (AccountStorage.remove s keys).1
  | .setDefaultKey a => AccountStorage.set_default s a
  | .setCurrentKey a => AccountStorage.set_current s a

/-- Apply a sequence of store operations, left to right. -/
def StoreOp.applyAll (s : StoreData) : List StoreOp → StoreData
  | [] => s
  | op :: rest => StoreOp.applyAll (StoreOp.apply s op) rest

/-- Whether an operation removes or overwrites the record stored under `key`. -/
def StoreOp.touches (key : String) : StoreOp → Bool
  | .createOrUpdate a _ => a.account == key
  | .removeKeys keys => decide (key ∈ keys)
  | .setDefaultKey _ => false
  | .setCurrentKey _ => false

theorem lookupAssoc_applyAll (key : String) (ops : List StoreOp) (s : StoreData)
    (h : ∀ op ∈ ops, StoreOp.touches key op = false) :
    lookupAssoc key (StoreOp.applyAll s ops).accounts = lookupAssoc key s.accounts := by
  induction ops generalizing s with
  | nil => rfl
  | cons op rest ih =>
    have hop := h op (List.mem_cons_self op rest)
    have hrest : ∀ o ∈ rest, StoreOp.touches key o = false :=
      fun o ho => h o (List.mem_cons_of_mem op ho)
    rw [StoreOp.applyAll, ih _ hrest]
    cases op with
    | createOrUpdate a connect =>
      have hne : a.account ≠ key := by
        intro e
        rw [StoreOp.touches, e] at hop
        simp at hop
      exact lookupAssoc_updateAssoc_ne key a.account _ s.accounts hne
    | removeKeys keys =>
      have hmem : key ∉ keys := by
        intro e
        rw [StoreOp.touches] at hop
        simp [e] at hop
      exact lookupAssoc_filter_not_mem keys key s.accounts hmem
    | setDefaultKey a => rfl
    | setCurrentKey a => rfl

/-- C4: after `create_or_update(A, connect)`, and after any further store
operations that neither remove `A.account` nor overwrite it, `find(A.account)`
returns a record whose stored fields equal those of `A`; and the persisted record
(`to_json`) is independent of the derived `is_default`/`is_current` flags. -/
theorem C4_create_or_update_find (A : AccountInfo) (connect : Bool) (s : StoreData)
    (ops : List StoreOp) (hkey : A.account ≠ "")
    (hops : ∀ op ∈ ops, StoreOp.touches A.account op = false) :
    (∃ r, AccountStorage.find
        (StoreOp.applyAll (AccountStorage.create_or_update A connect s) ops) A.account = some r ∧
        r.account = A.account ∧ r.hub = A.hub ∧ r.hostname = A.hostname) ∧
    (∀ b c : Bool, ({ A with is_default := b, is_current := c } : AccountInfo).to_json = A.to_json) := by
  refine ⟨?_, fun b c => rfl⟩
  have hlook : lookupAssoc A.account
      (StoreOp.applyAll (AccountStorage.create_or_update A connect s) ops).accounts
      = some ⟨A.hub, A.account, A.hostname⟩ := by
    rw [lookupAssoc_applyAll _ _ _ hops]
    exact lookupAssoc_updateAssoc_self A.account _ s.accounts
  refine ⟨AccountStorage.to_account_info
      (StoreOp.applyAll (AccountStorage.create_or_update A connect s) ops)
      ⟨A.hub, A.account, A.hostname⟩, ?_, ?_, rfl, rfl⟩
  · unfold AccountStorage.find
    rw [if_neg hkey, hlook]
    rfl
  · simp [AccountStorage.to_account_info, AccountInfo.make, hkey]

/-- C4 witness: add `corp`, then set another default, remove another key and
overwrite another account; `find corp` still returns the stored record. -/
theorem C4_create_or_update_find_witness :
    (∃ r, AccountStorage.find
        (StoreOp.applyAll
          (AccountStorage.create_or_update ⟨"hubA", "corp", "hostA", false, false⟩ true
            ⟨[], none, none⟩)
          [StoreOp.setDefaultKey "lab", StoreOp.removeKeys ["lab"],
           StoreOp.createOrUpdate ⟨"hubB", "lab", "hostB", true, true⟩ false]) "corp" = some r ∧
        r.account = "corp" ∧ r.hub = "hubA" ∧ r.hostname = "hostA") ∧
    (∀ b c : Bool,
      ({ hub := "hubA", account := "corp", hostname := "hostA",
         is_default := b, is_current := c } : AccountInfo).to_json
        = (⟨"hubA", "corp", "hostA", false, false⟩ : AccountInfo).to_json) :=
  C4_create_or_update_find ⟨"hubA", "corp", "hostA", false, false⟩ true ⟨[], none, none⟩
    [StoreOp.setDefaultKey "lab", StoreOp.removeKeys ["lab"],
     StoreOp.createOrUpdate ⟨"hubB", "lab", "hostB", true, true⟩ false]
    (by decide) (by decide)

/-! ## Claims C2 and C5: batch disconnect and delete -/

theorem disconnectLoop_isStop (fail : String → Bool) (vpn_dir : String) (cur : Option String)
    (accounts : List String) :
    (VPNClientExecutor.disconnectLoop fail vpn_dir cur accounts).2 = memOpt cur accounts := by
  induction accounts with
  | nil => cases cur <;> simp [VPNClientExecutor.disconnectLoop, memOpt]
  | cons a rest ih =>
    cases cur with
    | none => simp [VPNClientExecutor.disconnectLoop, memOpt, ih, memOpt]
    | some c =>
      simp only [VPNClientExecutor.disconnectLoop, ih, memOpt, List.mem_cons]
      by_cases h : c = a
      · simp [h]
      · simp [h, Ne.symm h]

theorem disconnectLoop_no_shutdown (fail : String → Bool) (vpn_dir : String) (cur : Option String)
    (accounts : List String) :
    ((VPNClientExecutor.disconnectLoop fail vpn_dir cur accounts).1.countP VpnEvent.isShutdown) = 0 := by
  induction accounts with
  | nil => rfl
  | cons a rest ih =>
    simp [VPNClientExecutor.disconnectLoop, List.countP_append, List.countP_cons,
      VpnEvent.isShutdown, ih]

/-- C2: `do_disconnect` clears the current pointer and calls
`shutdown_vpn(is_stop=True, is_disable=must_disable_service)` exactly once
precisely when the current account of the store is among the disconnected accounts;
otherwise it leaves the store untouched and never shuts down. -/
theorem C2_do_disconnect_shutdown (fail : String → Bool) (vpn_dir : String)
    (accounts : List String) (must_disable_service : Bool) (s : StoreData) :
    (memOpt s.currentAcc accounts = true →
      (VPNClientExecutor.do_disconnect fail vpn_dir accounts must_disable_service s).1
          = AccountStorage.set_current s "" ∧
      ∃ pre, (VPNClientExecutor.do_disconnect fail vpn_dir accounts must_disable_service s).2
          = pre ++ [VpnEvent.shutdown true must_disable_service] ∧
        pre.countP VpnEvent.isShutdown = 0) ∧
    (memOpt s.currentAcc accounts = false →
      (VPNClientExecutor.do_disconnect fail vpn_dir accounts must_disable_service s).1 = s ∧
      ((VPNClientExecutor.do_disconnect fail vpn_dir accounts must_disable_service s).2.countP
        VpnEvent.isShutdown) = 0) := by
  constructor
  · intro h
    simp only [VPNClientExecutor.do_disconnect, disconnectLoop_isStop, h, if_true]
    exact ⟨trivial, (VPNClientExecutor.disconnectLoop fail vpn_dir s.currentAcc accounts).1, rfl,
      disconnectLoop_no_shutdown fail vpn_dir s.currentAcc accounts⟩
  · intro h
    simp only [VPNClientExecutor.do_disconnect, disconnectLoop_isStop, h, Bool.false_eq_true,
      if_false]
    exact ⟨trivial, disconnectLoop_no_shutdown fail vpn_dir s.currentAcc accounts⟩

/-- C2 witness: `disconnect(["corp"])` with `current == "corp"` clears the
pointer and shuts down exactly once; with `current == "lab"` it does neither. -/
theorem C2_do_disconnect_shutdown_witness :
    ((VPNClientExecutor.do_disconnect (fun _ => false) "/app/vpnclient" ["corp"] true
        ⟨[("corp", ⟨"h", "corp", "x"⟩)], some "corp", none⟩).1
      = AccountStorage.set_current ⟨[("corp", ⟨"h", "corp", "x"⟩)], some "corp", none⟩ "" ∧
      ∃ pre, (VPNClientExecutor.do_disconnect (fun _ => false) "/app/vpnclient" ["corp"] true
          ⟨[("corp", ⟨"h", "corp", "x"⟩)], some "corp", none⟩).2
        = pre ++ [VpnEvent.shutdown true true] ∧ pre.countP VpnEvent.isShutdown = 0) ∧
    ((VPNClientExecutor.do_disconnect (fun _ => false) "/app/vpnclient" ["corp"] true
        ⟨[("corp", ⟨"h", "corp", "x"⟩)], some "lab", none⟩).1
      = ⟨[("corp", ⟨"h", "corp", "x"⟩)], some "lab", none⟩ ∧
      ((VPNClientExecutor.do_disconnect (fun _ => false) "/app/vpnclient" ["corp"] true
        ⟨[("corp", ⟨"h", "corp", "x"⟩)], some "lab", none⟩).2.countP VpnEvent.isShutdown) = 0) :=
  ⟨(C2_do_disconnect_shutdown (fun _ => false) "/app/vpnclient" ["corp"] true
      ⟨[("corp", ⟨"h", "corp", "x"⟩)], some "corp", none⟩).1 (by decide),
   (C2_do_disconnect_shutdown (fun _ => false) "/app/vpnclient" ["corp"] true
      ⟨[("corp", ⟨"h", "corp", "x"⟩)], some "lab", none⟩).2 (by decide)⟩

theorem deleteLoop_fail_indep (fail fail' : String → Bool) (s : StoreData)
    (accounts : List String) :
    (VPNClientExecutor.deleteLoop fail s accounts).1 = (VPNClientExecutor.deleteLoop fail' s accounts).1 ∧
    ((VPNClientExecutor.deleteLoop fail s accounts).2.1.map VpnEvent.eraseFail
      = (VPNClientExecutor.deleteLoop fail' s accounts).2.1.map VpnEvent.eraseFail) ∧
    (VPNClientExecutor.deleteLoop fail s accounts).2.2 = (VPNClientExecutor.deleteLoop fail' s accounts).2.2 := by
  induction accounts generalizing s with
  | nil => exact ⟨rfl, rfl, rfl⟩
  | cons a rest ih =>
    have h := ih (AccountStorage.remove s [a]).1
    simp only [VPNClientExecutor.deleteLoop, List.map_cons, VpnEvent.eraseFail]
    exact ⟨h.1, by rw [h.2.1], by rw [h.2.2]⟩

theorem deleteLoop_params (fail : String → Bool) (s : StoreData) (accounts : List String) :
    (VPNClientExecutor.deleteLoop fail s accounts).2.1.filterMap VpnEvent.execParam = accounts := by
  induction accounts generalizing s with
  | nil => rfl
  | cons a rest ih =>
    simp [VPNClientExecutor.deleteLoop, List.filterMap_cons, VpnEvent.execParam, ih]

theorem deleteLoop_no_shutdown (fail : String → Bool) (s : StoreData) (accounts : List String) :
    ((VPNClientExecutor.deleteLoop fail s accounts).2.1.countP VpnEvent.isShutdown) = 0 := by
  induction accounts generalizing s with
  | nil => rfl
  | cons a rest ih =>
    simp [VPNClientExecutor.deleteLoop, List.countP_cons, VpnEvent.isShutdown, ih]

theorem disconnectLoop_fail_indep (fail fail' : String → Bool) (vpn_dir : String)
    (cur : Option String) (accounts : List String) :
    (VPNClientExecutor.disconnectLoop fail vpn_dir cur accounts).1.map VpnEvent.eraseFail
      = (VPNClientExecutor.disconnectLoop fail' vpn_dir cur accounts).1.map VpnEvent.eraseFail := by
  induction accounts with
  | nil => rfl
  | cons a rest ih =>
    simp only [VPNClientExecutor.disconnectLoop, List.map_append, List.map_cons,
      VpnEvent.eraseFail, ih]

theorem disconnectLoop_params (fail : String → Bool) (vpn_dir : String) (cur : Option String)
    (accounts : List String) :
    (VPNClientExecutor.disconnectLoop fail vpn_dir cur accounts).1.filterMap VpnEvent.execParam
      = accounts := by
  induction accounts with
  | nil => rfl
  | cons a rest ih =>
    simp [VPNClientExecutor.disconnectLoop, List.filterMap_append, List.filterMap_cons,
      VpnEvent.execParam, ih]

/-- C5: in `do_delete` and `do_disconnect`, per-account management-command
failures do not abort the batch: for every failure pattern, every account in
the batch still gets its management command issued (in order), the resulting
store equals the failure-free run, and the final shutdown decision is still
made exactly once, equal to the failure-free one. -/
theorem C5_batch_failures_not_aborting (fail : String → Bool) (vpn_dir : String)
    (accounts : List String) (must_disable_service : Bool) (s : StoreData) :
    ((VPNClientExecutor.do_delete fail accounts s).1
        = (VPNClientExecutor.do_delete (fun _ => false) accounts s).1) ∧
    ((VPNClientExecutor.do_delete fail accounts s).2.map VpnEvent.eraseFail
        = (VPNClientExecutor.do_delete (fun _ => false) accounts s).2.map VpnEvent.eraseFail) ∧
    ((VPNClientExecutor.do_delete fail accounts s).2.filterMap VpnEvent.execParam = accounts) ∧
    (∃ pre stop dis, (VPNClientExecutor.do_delete fail accounts s).2
        = pre ++ [VpnEvent.shutdown stop dis] ∧ pre.countP VpnEvent.isShutdown = 0) ∧
    ((VPNClientExecutor.do_disconnect fail vpn_dir accounts must_disable_service s).1
        = (VPNClientExecutor.do_disconnect (fun _ => false) vpn_dir accounts must_disable_service s).1) ∧
    ((VPNClientExecutor.do_disconnect fail vpn_dir accounts must_disable_service s).2.map VpnEvent.eraseFail
        = (VPNClientExecutor.do_disconnect (fun _ => false) vpn_dir accounts must_disable_service s).2.map
            VpnEvent.eraseFail) ∧
    ((VPNClientExecutor.do_disconnect fail vpn_dir accounts must_disable_service s).2.filterMap
        VpnEvent.execParam = accounts) := by
  have hdel := deleteLoop_fail_indep fail (fun _ => false) s accounts
  refine ⟨?_, ?_, ?_, ?_, ?_, ?_, ?_⟩
  · simp only [VPNClientExecutor.do_delete]
    exact hdel.1
  · simp only [VPNClientExecutor.do_delete, List.map_append, hdel.2.1, hdel.2.2,
      List.map_cons, VpnEvent.eraseFail]
  · simp [VPNClientExecutor.do_delete, List.filterMap_append, deleteLoop_params,
      VpnEvent.execParam]
  · exact ⟨(VPNClientExecutor.deleteLoop fail s accounts).2.1, _, _, rfl,
      deleteLoop_no_shutdown fail s accounts⟩
  · simp only [VPNClientExecutor.do_disconnect, disconnectLoop_isStop]
    split
    · rfl
    · rfl
  · simp only [VPNClientExecutor.do_disconnect, disconnectLoop_isStop]
    split
    · simp only [List.map_append, disconnectLoop_fail_indep fail (fun _ => false)]
    · exact disconnectLoop_fail_indep fail (fun _ => false) vpn_dir s.currentAcc accounts
  · simp only [VPNClientExecutor.do_disconnect, disconnectLoop_isStop]
    split
    · simp [List.filterMap_append, disconnectLoop_params, VpnEvent.execParam]
    · exact disconnectLoop_params fail vpn_dir s.currentAcc accounts

/-! ## Claim C6: stale PID files -/

theorem check_pid_stale (pidExists : Int → Bool) (content : String)
    (h : ∀ p, pyToInt content = some p → 0 < p → pidExists p = false) :
    (VPNPIDHandler.check_pid pidExists content).1 = 0 := by
  unfold VPNPIDHandler.check_pid
  cases hp : pyToInt content with
  | none => rfl
  | some p =>
    by_cases h0 : 0 < p
    · have hdead := h p hp h0
      simp [hdead]
    · simp [h0]

theorem find_pid_stale (pidExists : Int → Bool) (files : List (String × String))
    (h : ∀ f ∈ files, ∀ p, pyToInt f.2 = some p → 0 < p → pidExists p = false) :
    (VPNPIDHandler.find_pid pidExists files).1 = 0 := by
  induction files with
  | nil => rfl
  | cons f rest ih =>
    have hf : (VPNPIDHandler.check_pid pidExists f.2).1 = 0 :=
      check_pid_stale pidExists f.2 (h f (List.mem_cons_self f rest))
    have hrest := ih (fun g hg => h g (List.mem_cons_of_mem f hg))
    cases f with
    | mk path content =>
      simp only [VPNPIDHandler.find_pid]
      simp only at hf
      simp [hf, hrest]

/-- C6: when every candidate PID file either fails to parse as a positive
integer or names a process that does not exist, `is_running` returns false and
removes all candidate PID files and the canonical PID file; no error is
raised. -/
theorem C6_is_running_stale (pidExists : Int → Bool) (fs : PidFs)
    (h : ∀ f ∈ fs.pidFiles, ∀ p, pyToInt f.2 = some p → 0 < p → pidExists p = false) :
    VPNPIDHandler.is_running pidExists fs = (false, ⟨[], none⟩) := by
  have h0 : (VPNPIDHandler.find_pid pidExists fs.pidFiles).1 = 0 :=
    find_pid_stale pidExists fs.pidFiles h
  simp [VPNPIDHandler.is_running, h0]

/-- C6 witness: a PID file containing `99999999` with no such process: the
scan reports not-running and removes the stale file and the canonical file. -/
theorem C6_is_running_stale_witness :
    VPNPIDHandler.is_running (fun _ => false)
      ⟨[("/app/vpnclient/.pid_client", "99999999")], some "123"⟩ = (false, ⟨[], none⟩) :=
  C6_is_running_stale (fun _ => false) ⟨[("/app/vpnclient/.pid_client", "99999999")], some "123"⟩
    (fun _ _ _ _ _ => rfl)

/-! ## Claim C7: DNS tweak -/

/-- C7: `DNSResolver.tweak` is a no-op on `PREINIT` and on `RENEW` with
unchanged nameservers; in every other case it backs up the system resolver
file only when no backup exists yet, writes a generated file whose nameserver
lines are at most the first two new nameservers followed by original
nameserver lines from the backup, at most three in total and new ones first,
and redirects the system resolver file to the generated file. -/
theorem C7_dns_tweak (reason : DHCPReason) (new_name_servers old_name_servers : String)
    (st : DnsState) :
    (reason = DHCPReason.PREINIT ∨
        (reason = DHCPReason.RENEW ∧ new_name_servers = old_name_servers) →
      DNSResolver.tweak reason new_name_servers old_name_servers st = st) ∧
    (¬(reason = DHCPReason.PREINIT ∨
        (reason = DHCPReason.RENEW ∧ new_name_servers = old_name_servers)) →
      (st.origin = none →
        (DNSResolver.tweak reason new_name_servers old_name_servers st).origin = some st.system) ∧
      (∀ o, st.origin = some o →
        (DNSResolver.tweak reason new_name_servers old_name_servers st).origin = some o) ∧
      (let newLines := (((pySplitComma new_name_servers).take 2).filter (fun ns => ns ≠ "")).map
          (fun ns => "nameserver " ++ ns)
       let st' := DNSResolver.tweak reason new_name_servers old_name_servers st
       let originals := ((st'.origin.getD []).filter isNameserverLine).take (3 - newLines.length)
       st'.vpnCfg = some ("### Generated by VPN service" :: (newLines ++ originals)) ∧
       newLines.length ≤ 2 ∧
       (newLines ++ originals).length ≤ 3 ∧
       st'.systemIsLinkToVpn = true ∧
       some st'.system = st'.vpnCfg)) := by
  constructor
  · intro h
    unfold DNSResolver.tweak
    rw [if_pos h]
  · intro h
    have e : DNSResolver.tweak reason new_name_servers old_name_servers st =
        (let nameservers := (((pySplitComma new_name_servers).take 2).filter (fun ns => ns ≠ "")).map
          (fun ns => "nameserver " ++ ns)
         let origin := match st.origin with
          | some o => some o
          | none => some st.system
         let origins := (origin.getD []).filter isNameserverLine
         let nameservers2 := nameservers ++ origins.take (3 - nameservers.length)
         let content := "### Generated by VPN service" :: nameservers2
         { origin := origin, vpnCfg := some content, system := content,
           systemIsLinkToVpn := true }) := by
      unfold DNSResolver.tweak
      rw [if_neg h]
    have hlen2 : ((((pySplitComma new_name_servers).take 2).filter (fun ns => ns ≠ "")).map
        (fun ns => "nameserver " ++ ns)).length ≤ 2 := by
      calc ((((pySplitComma new_name_servers).take 2).filter (fun ns => ns ≠ "")).map
            (fun ns => "nameserver " ++ ns)).length
          = (((pySplitComma new_name_servers).take 2).filter (fun ns => ns ≠ "")).length :=
            List.length_map _ _
        _ ≤ ((pySplitComma new_name_servers).take 2).length := List.length_filter_le _ _
        _ ≤ 2 := by rw [List.length_take]; omega
    refine ⟨?_, ?_, ?_, hlen2, ?_, ?_, ?_⟩
    · intro ho
      rw [e]
      simp only [ho]
    · intro o ho
      rw [e]
      simp only [ho]
    · rw [e]
    · rw [e]
      simp only [List.length_append, List.length_take]
      omega
    · rw [e]
    · rw [e]

/-- C7 witness: `PREINIT` is a no-op; a `BOUND` event on a fresh state backs
up the current system resolver content. -/
theorem C7_dns_tweak_witness :
    (DNSResolver.tweak DHCPReason.PREINIT "1.1.1.1" "8.8.8.8"
        ⟨none, none, ["nameserver 9.9.9.9"], false⟩
      = ⟨none, none, ["nameserver 9.9.9.9"], false⟩) ∧
    ((DNSResolver.tweak DHCPReason.BOUND "1.1.1.1,8.8.8.8,4.4.4.4" ""
        ⟨none, none, ["nameserver 9.9.9.9", "search lan"], false⟩).origin
      = some ["nameserver 9.9.9.9", "search lan"]) :=
  ⟨(C7_dns_tweak DHCPReason.PREINIT "1.1.1.1" "8.8.8.8"
      ⟨none, none, ["nameserver 9.9.9.9"], false⟩).1 (Or.inl rfl),
   ((C7_dns_tweak DHCPReason.BOUND "1.1.1.1,8.8.8.8,4.4.4.4" ""
      ⟨none, none, ["nameserver 9.9.9.9", "search lan"], false⟩).2 (by decide)).1 rfl⟩

/-! ## Claim C8: probing on an unsupported host -/

/-- C8: on a host where neither the systemd-style nor the procd-style marker
process is found, `DeviceResolver.probe` fails with the unknown-init-system
error and assigns none of the three controllers: the resolver state stays in
its initial all-`None` shape. -/
theorem C8_probe_unsupported_platform (env : ProbeEnv)
    (h1 : env.systemdRunning = false) (h2 : env.procdRunning = false) :
    DeviceResolver.probe env DeviceState.init
      = (Except.error ProbeErr.unknownInitSystem, DeviceState.init) := by
  unfold DeviceResolver.probe
  rw [h1, h2]
  rfl

/-- C8 witness: a host with every probe negative except unrelated ones. -/
theorem C8_probe_unsupported_platform_witness :
    DeviceResolver.probe
      ⟨false, false, true, fun _ => ServiceStatus.RUNNING, true⟩ DeviceState.init
      = (Except.error ProbeErr.unknownInitSystem, DeviceState.init) :=
  C8_probe_unsupported_platform ⟨false, false, true, fun _ => ServiceStatus.RUNNING, true⟩ rfl rfl

/-! ## Claim C1: bounded two-phase lease polling -/

theorem loopGo_polls_le (pred : Nat → Bool) (interval fuel : Nat) :
    ∀ i, (loopGo pred interval i fuel).polls ≤ fuel := by
  induction fuel with
  | zero => intro i; simp [loopGo]
  | succ n ih =>
    intro i
    by_cases hp : pred i
    · simp [loopGo, hp]
    · have hp' : pred i = false := by simpa using hp
      simp only [loopGo, hp', Bool.false_eq_true, if_false]
      exact Nat.succ_le_succ (ih (i + 1))

theorem loopGo_slept_le (pred : Nat → Bool) (interval fuel : Nat) :
    ∀ i, (loopGo pred interval i fuel).slept ≤ fuel * interval := by
  induction fuel with
  | zero => intro i; simp [loopGo]
  | succ n ih =>
    intro i
    by_cases hp : pred i
    · simp [loopGo, hp]
    · have hp' : pred i = false := by simpa using hp
      simp only [loopGo, hp', Bool.false_eq_true, if_false]
      rw [Nat.succ_mul]
      exact Nat.add_le_add_right (ih (i + 1)) interval

theorem loopGo_ok_iff (pred : Nat → Bool) (interval fuel : Nat) :
    ∀ i, ((loopGo pred interval i fuel).ok = true ↔ ∃ k, k < fuel ∧ pred (i + k) = true) := by
  induction fuel with
  | zero => intro i; simp [loopGo]
  | succ n ih =>
    intro i
    by_cases hp : pred i
    · simp only [loopGo, hp, if_true]
      exact ⟨fun _ => ⟨0, Nat.succ_pos n, by simpa using hp⟩, fun _ => trivial⟩
    · have hp' : pred i = false := by simpa using hp
      simp only [loopGo, hp', Bool.false_eq_true, if_false]
      rw [ih (i + 1)]
      constructor
      · rintro ⟨k, hk, hpk⟩
        exact ⟨k + 1, by omega, by rwa [show i + (k + 1) = i + 1 + k by omega]⟩
      · rintro ⟨k, hk, hpk⟩
        cases k with
        | zero =>
          rw [Nat.add_zero] at hpk
          exact absurd hpk hp
        | succ k' =>
          exact ⟨k', by omega, by rwa [show i + 1 + k' = i + (k' + 1) by omega]⟩

/-- C1: `lease_vpn_ip` issues at most 5 session-status polls at 2-second
intervals, then (only on phase-one success) one lease pre-action on the
derived interface `vpn_` + account followed by at most 5 interface-IP polls
at 1-second intervals; either exhausted budget yields the corresponding fatal
error, and total sleeping never exceeds 5 * 2 + 5 * 1 seconds. -/
theorem C1_lease_vpn_ip_two_bounded_phases (vpnStatus : Nat → Option String)
    (vpnIp : Nat → Bool) (account : String) (hacc : pyStrip account = account) :
    (VPNClientExecutor.lease_vpn_ip vpnStatus vpnIp account).statusPolls ≤ 5 ∧
    (VPNClientExecutor.lease_vpn_ip vpnStatus vpnIp account).ipPolls ≤ 5 ∧
    (VPNClientExecutor.lease_vpn_ip vpnStatus vpnIp account).slept ≤ 5 * 2 + 5 * 1 ∧
    ((VPNClientExecutor.lease_vpn_ip vpnStatus vpnIp account).result = Except.ok () ↔
      ((∃ k, k < 5 ∧ vpnStatus k = some sessionEstablishedMark) ∧
        (∃ k, k < 5 ∧ vpnIp k = true))) ∧
    ((∃ k, k < 5 ∧ vpnStatus k = some sessionEstablishedMark) →
      (VPNClientExecutor.lease_vpn_ip vpnStatus vpnIp account).leaseCmds
        = [(account, "vpn_" ++ account)]) ∧
    (¬(∃ k, k < 5 ∧ vpnStatus k = some sessionEstablishedMark) →
      (VPNClientExecutor.lease_vpn_ip vpnStatus vpnIp account).result
          = Except.error LeaseErr.vpnStartFailed ∧
      (VPNClientExecutor.lease_vpn_ip vpnStatus vpnIp account).leaseCmds = [] ∧
      (VPNClientExecutor.lease_vpn_ip vpnStatus vpnIp account).ipPolls = 0) ∧
    ((∃ k, k < 5 ∧ vpnStatus k = some sessionEstablishedMark) →
      ¬(∃ k, k < 5 ∧ vpnIp k = true) →
      (VPNClientExecutor.lease_vpn_ip vpnStatus vpnIp account).result
          = Except.error LeaseErr.leaseIpFailed) := by
  have h1 : (loop_interval (fun i => vpnStatus i == some sessionEstablishedMark) 5 2).ok = true ↔
      ∃ k, k < 5 ∧ vpnStatus k = some sessionEstablishedMark := by
    rw [loop_interval, loopGo_ok_iff]
    simp [beq_iff_eq]
  have h2 : (loop_interval (fun i => vpnIp i) 5 1).ok = true ↔ ∃ k, k < 5 ∧ vpnIp k = true := by
    rw [loop_interval, loopGo_ok_iff]
    simp
  have hs1 : (loop_interval (fun i => vpnStatus i == some sessionEstablishedMark) 5 2).slept ≤ 10 :=
    loopGo_slept_le _ 2 5 0
  have hs2 : (loop_interval (fun i => vpnIp i) 5 1).slept ≤ 5 := by
    have := loopGo_slept_le (fun i => vpnIp i) 1 5 0
    simpa using this
  have hp1 : (loop_interval (fun i => vpnStatus i == some sessionEstablishedMark) 5 2).polls ≤ 5 :=
    loopGo_polls_le _ 2 5 0
  have hp2 : (loop_interval (fun i => vpnIp i) 5 1).polls ≤ 5 :=
    loopGo_polls_le _ 1 5 0
  by_cases hs : ∃ k, k < 5 ∧ vpnStatus k = some sessionEstablishedMark
  · have hok : (loop_interval (fun i => vpnStatus i == some sessionEstablishedMark) 5 2).ok = true :=
      h1.mpr hs
    have hnic : ClientOpts.account_to_nic account = "vpn_" ++ account := by
      unfold ClientOpts.account_to_nic
      rw [hacc]
    simp only [VPNClientExecutor.lease_vpn_ip, hok, if_true, hnic]
    refine ⟨hp1, hp2, by omega, ?_, fun _ => by trivial, fun hn => absurd hs hn, fun _ hni => ?_⟩
    · by_cases hip : (loop_interval (fun i => vpnIp i) 5 1).ok = true
      · simp only [hip, if_true]
        exact ⟨fun _ => ⟨hs, h2.mp hip⟩, fun _ => by trivial⟩
      · have hip' : (loop_interval (fun i => vpnIp i) 5 1).ok = false := by
          simpa using hip
        simp only [hip', Bool.false_eq_true, if_false]
        constructor
        · intro hcontra
          exact absurd hcontra (by simp)
        · intro hb
          exact absurd (h2.mpr hb.2) hip
    · have hip' : (loop_interval (fun i => vpnIp i) 5 1).ok = false := by
        have : ¬ ((loop_interval (fun i => vpnIp i) 5 1).ok = true) := fun c => hni (h2.mp c)
        simpa using this
      simp only [hip', Bool.false_eq_true, if_false]
  · have hok : (loop_interval (fun i => vpnStatus i == some sessionEstablishedMark) 5 2).ok = false := by
      have : ¬ ((loop_interval (fun i => vpnStatus i == some sessionEstablishedMark) 5 2).ok = true) :=
        fun c => hs (h1.mp c)
      simpa using this
    simp only [VPNClientExecutor.lease_vpn_ip, hok, Bool.false_eq_true, if_false]
    refine ⟨hp1, Nat.zero_le 5, by omega, ?_, fun hc => absurd hc hs,
      fun _ => ⟨by trivial, by trivial, by trivial⟩, fun hc => absurd hc hs⟩
    constructor
    · intro hcontra
      exact absurd hcontra (by simp)
    · intro hb
      exact absurd hb.1 hs

/-- C1 witness: with the session marker visible at the first poll and an IP
at the second poll, leasing succeeds within the budget for account `corp`. -/
theorem C1_lease_vpn_ip_two_bounded_phases_witness :
    (VPNClientExecutor.lease_vpn_ip (fun _ => some sessionEstablishedMark) (fun k => k ≥ 1)
        "corp").statusPolls ≤ 5 ∧
    (VPNClientExecutor.lease_vpn_ip (fun _ => some sessionEstablishedMark) (fun k => k ≥ 1)
        "corp").ipPolls ≤ 5 ∧
    (VPNClientExecutor.lease_vpn_ip (fun _ => some sessionEstablishedMark) (fun k => k ≥ 1)
        "corp").slept ≤ 5 * 2 + 5 * 1 ∧
    ((VPNClientExecutor.lease_vpn_ip (fun _ => some sessionEstablishedMark) (fun k => k ≥ 1)
        "corp").result = Except.ok () ↔
      ((∃ k, k < 5 ∧ (fun _ => some sessionEstablishedMark) k = some sessionEstablishedMark) ∧
        (∃ k, k < 5 ∧ (fun k => decide (k ≥ 1)) k = true))) ∧
    ((∃ k, k < 5 ∧ (fun _ => some sessionEstablishedMark) k = some sessionEstablishedMark) →
      (VPNClientExecutor.lease_vpn_ip (fun _ => some sessionEstablishedMark) (fun k => k ≥ 1)
        "corp").leaseCmds = [("corp", "vpn_" ++ "corp")]) ∧
    (¬(∃ k, k < 5 ∧ (fun _ => some sessionEstablishedMark) k = some sessionEstablishedMark) →
      (VPNClientExecutor.lease_vpn_ip (fun _ => some sessionEstablishedMark) (fun k => k ≥ 1)
        "corp").result = Except.error LeaseErr.vpnStartFailed ∧
      (VPNClientExecutor.lease_vpn_ip (fun _ => some sessionEstablishedMark) (fun k => k ≥ 1)
        "corp").leaseCmds = [] ∧
      (VPNClientExecutor.lease_vpn_ip (fun _ => some sessionEstablishedMark) (fun k => k ≥ 1)
        "corp").ipPolls = 0) ∧
    ((∃ k, k < 5 ∧ (fun _ => some sessionEstablishedMark) k = some sessionEstablishedMark) →
      ¬(∃ k, k < 5 ∧ (fun k => decide (k ≥ 1)) k = true) →
      (VPNClientExecutor.lease_vpn_ip (fun _ => some sessionEstablishedMark) (fun k => k ≥ 1)
        "corp").result = Except.error LeaseErr.leaseIpFailed) :=
  C1_lease_vpn_ip_two_bounded_phases (fun _ => some sessionEstablishedMark)
    (fun k => k ≥ 1) "corp" (by decide)

/-- C5 witness: with the command failing for the first account of the batch,
both batch operations still issue the per-account command for every account. -/
theorem C5_batch_failures_not_aborting_witness :
    ((VPNClientExecutor.do_delete (fun a => a == "corp") ["corp", "lab"]
        ⟨[("corp", ⟨"h", "corp", "x"⟩), ("lab", ⟨"h", "lab", "y"⟩)], some "corp", some "lab"⟩).2.filterMap
      VpnEvent.execParam = ["corp", "lab"]) ∧
    ((VPNClientExecutor.do_disconnect (fun a => a == "corp") "/app/vpnclient" ["corp", "lab"] false
        ⟨[("corp", ⟨"h", "corp", "x"⟩), ("lab", ⟨"h", "lab", "y"⟩)], some "corp", some "lab"⟩).2.filterMap
      VpnEvent.execParam = ["corp", "lab"]) :=
  ⟨(C5_batch_failures_not_aborting (fun a => a == "corp") "/app/vpnclient" ["corp", "lab"] false
      ⟨[("corp", ⟨"h", "corp", "x"⟩), ("lab", ⟨"h", "lab", "y"⟩)], some "corp", some "lab"⟩).2.2.1,
   (C5_batch_failures_not_aborting (fun a => a == "corp") "/app/vpnclient" ["corp", "lab"] false
      ⟨[("corp", ⟨"h", "corp", "x"⟩), ("lab", ⟨"h", "lab", "y"⟩)], some "corp", some "lab"⟩).2.2.2.2.2.2⟩
